import Mathlib

/-!
Shallow embedding of the interaction core of the voice chat client.

The repository contains two duplicated screen implementations of the same
flow:

* the primary screen (source file with role display, reset pill and
  per-turn feedback toggling), embedded below under the plain names
  matching the source (`handleSuccess`, `toggleFeedback`, `resetHistory`,
  `stopRecording`, `toggleRecording`, `contextPillOnPress`,
  `uploadAudioWeb` / `uploadAudioNative`);
* a legacy duplicate (`DutchLearningApp/app/(tabs)/index.tsx`), embedded
  under `Legacy`-prefixed names where its behaviour differs.

React component state is modelled as an explicit record; each handler is a
pure state transformer that also reports its externally visible effects
(alerts shown, playback issued, diagnostic logging).  Values that may be
`undefined`/`null` in the source are modelled by `Option`; JS string
truthiness (empty string is falsy) is modelled by `truthy`.  A JS
exception raised inside a state updater is modelled by `Except.error`.
-/

inductive Sender
  | user
  | ai
  deriving DecidableEq, Repr

/-- One conversation turn as built by the screens.  The legacy screen
builds turns without `feedback`/`showFeedback` fields; absent fields are
modelled as `none` / `false`. -/
structure Turn where
  sender : Sender
  text : Option String
  feedback : Option String
  showFeedback : Bool
  deriving DecidableEq, Repr

/-- The closed set of scenario identifiers rendered as pills. -/
inductive ScenarioId
  | waiter
  | doctor
  | grocery
  deriving DecidableEq, Repr

def waiterUserRole : String := "international student ordering food/drinks"

def waiterAiRole : String := "polite waiter at a Dutch caf\xe9"

def doctorUserRole : String := "international student visiting as a patient"

def doctorAiRole : String := "Dutch General Practitioner (\x27huisarts\x27)"

def groceryUserRole : String := "customer checking out at the counter"

def groceryAiRole : String := "cashier at a Dutch supermarket"

/-- The `user_ai_roles` record: scenario to (user role, ai role) pair. -/
def user_ai_roles : ScenarioId → List String
  | .waiter => [waiterUserRole, waiterAiRole]
  | .doctor => [doctorUserRole, doctorAiRole]
  | .grocery => [groceryUserRole, groceryAiRole]

/-- The parsed JSON body of a `/chat-audio` response.  Every field may be
absent; no schema validation happens in the client. -/
structure UploadData where
  status : Option String
  user_text : Option String
  reply : Option String
  feedback : Option String
  audio : Option String
  deriving DecidableEq, Repr

def successStr : String := "success"

/-- JS truthiness of an optional string: `undefined`, `null` and the empty
string are falsy. -/
def truthy : Option String → Bool
  | none => false
  | some s => !(s == "")

/-- Component state of the primary screen (the hooks of the component). -/
structure AppState where
  context : ScenarioId
  userAiPairDescription : List String
  liveFeedback : Bool
  messages : List Turn
  displayRoles : Bool
  isRecording : Bool
  isLoading : Bool
  recordingRef : Option Nat
  deriving DecidableEq, Repr

/-- Initial hook values of the primary screen. -/
def initState : AppState :=
  { context := .waiter
    userAiPairDescription := user_ai_roles .waiter
    liveFeedback := true
    messages := []
    displayRoles := true
    isRecording := false
    isLoading := false
    recordingRef := none }

/-- The user-facing notices the screens can raise. -/
inductive AlertKind
  | permissionRequired
  | startError
  | connectionError
  | aiError
  deriving DecidableEq, Repr

/-- Result of a handler run: the new state plus the effects issued. -/
structure HandleResult where
  state : AppState
  play : Option String
  alert : Option AlertKind
  deriving DecidableEq, Repr

/-- `handleSuccess` of the primary screen.  On `status === "success"` it
pushes a user turn (feedback gated by the `liveFeedback` hook AND the JS
truthiness of `data.feedback`) and an ai turn, then requests playback when
`data.audio` is truthy; otherwise it raises the AI-error alert. -/
def handleSuccess (s : AppState) (data : UploadData) : HandleResult :=
  if data.status = some successStr then
    let userTurn : Turn :=
      { sender := .user
        text := data.user_text
        feedback := if s.liveFeedback && truthy data.feedback then data.feedback else none
        showFeedback := false }
    let aiTurn : Turn :=
      { sender := .ai, text := data.reply, feedback := none, showFeedback := false }
    { state := { s with messages := s.messages ++ [userTurn, aiTurn] }
      play := if truthy data.audio then data.audio else none
      alert := none }
  else
    { state := s, play := none, alert := some .aiError }

/-- The state updater of `toggleFeedback` on the message list.  The source
reads `updated[index].sender` with no bounds check: an out-of-range index
dereferences `undefined`, which raises a TypeError, modelled as
`Except.error ()`. -/
def toggleFeedback (prev : List Turn) (index : Nat) : Except Unit (List Turn) :=
  match prev[index]? with
  | none => Except.error ()
  | some t =>
    if t.sender = Sender.user then
      Except.ok (prev.set index { t with showFeedback := !t.showFeedback })
    else
      Except.ok prev

/-- The `onPress` handler of a context pill on the primary screen: sets the
role pair, clears the message list, sets the context and re-enables role
display. -/
def contextPillOnPress (s : AppState) (c : ScenarioId) : AppState :=
  { s with
    userAiPairDescription := user_ai_roles c
    messages := []
    context := c
    displayRoles := true }

/-- Remote outcome of the `PUT /reset_context` call: either an HTTP
response with some status code, or the fetch promise rejecting. -/
inductive ResetOutcome
  | response (status : Nat)
  | failure
  deriving DecidableEq, Repr

/-- Result of `resetHistory`: new state, whether the soft-failure branch
logged, and any alert (the source never alerts here). -/
structure ResetResult where
  state : AppState
  loggedSoftFailure : Bool
  alert : Option AlertKind
  deriving DecidableEq, Repr

/-- `resetHistory`: hides the roles, performs the PUT; on any HTTP
response (any status) it clears the messages and re-shows the roles,
logging when the status is not 204; when the fetch throws, the catch block
only logs, so the messages are NOT cleared and the roles stay hidden. -/
def resetHistory (s : AppState) (o : ResetOutcome) : ResetResult :=
  let s1 := { s with displayRoles := false }
  match o with
  | .response st =>
    { state := { s1 with messages := [], displayRoles := true }
      loggedSoftFailure := st != 204
      alert := none }
  | .failure =>
    { state := s1, loggedSoftFailure := true, alert := none }

/-- Environment of one `stopRecording` run once a handle exists: the
`stopAndUnloadAsync` call may throw, or `getURI` may yield null, or a URI
is produced. -/
inductive StopEnv
  | stopThrows
  | noUri
  | gotUri (uri : String)
  deriving DecidableEq, Repr

/-- Which path `stopRecording` took. -/
inductive StopOutcome
  | nothingCaptured
  | stopError
  | noUriProduced
  | readyToUpload (uri : String)
  deriving DecidableEq, Repr

/-- `stopRecording`: clears the recording flag and raises the loading
flag; with no active handle it lowers the loading flag again and returns
(the nothing-captured path); otherwise it stops the recorder, and on a URI
hands off to `uploadAudio` (modelled separately; the loading flag is then
still raised and is lowered by the `finally` of `uploadAudio`). -/
def stopRecording (s : AppState) (env : StopEnv) : AppState × StopOutcome :=
  let s1 := { s with isRecording := false, isLoading := true }
  match s.recordingRef with
  | none => ({ s1 with isLoading := false }, .nothingCaptured)
  | some _ =>
    match env with
    | .stopThrows => ({ s1 with isLoading := false }, .stopError)
    | .noUri => ({ s1 with recordingRef := none, isLoading := false }, .noUriProduced)
    | .gotUri u => ({ s1 with recordingRef := none }, .readyToUpload u)

/-- `startRecording`: on device success stores the handle and raises the
recording flag; on a device failure only the start-error alert is shown. -/
def startRecording (s : AppState) (res : Option Nat) : AppState × Option AlertKind :=
  match res with
  | some h => ({ s with recordingRef := some h, isRecording := true }, none)
  | none => (s, some .startError)

/-- What a tap on the record control did. -/
inductive TapAction
  | ignored
  | stopped (out : StopOutcome)
  | startAttempted
  deriving DecidableEq, Repr

/-- `toggleRecording`: the loading guard returns immediately while an
upload is in flight; otherwise the tap stops or starts a recording. -/
def toggleRecording (s : AppState) (env : StopEnv) (startRes : Option Nat) :
    AppState × TapAction :=
  if s.isLoading then (s, .ignored)
  else if s.isRecording then
    let r := stopRecording s env
    (r.1, .stopped r.2)
  else
    ((startRecording s startRes).1, .startAttempted)

/-- Outcome of parsing the response body as JSON. -/
inductive BodyOutcome
  | parseFail
  | parsed (data : UploadData)
  deriving DecidableEq, Repr

/-- Outcome of the HTTP exchange of `uploadAudio`. -/
inductive HttpOutcome
  | netFail
  | response (status : Nat) (body : BodyOutcome)
  deriving DecidableEq, Repr

/-- Web branch of `uploadAudio`: `fetch` then `upload.json()` then
`handleSuccess`.  The status code is never inspected; a rejection of
either promise lands in the catch block (connection alert); the `finally`
always lowers the loading flag. -/
def uploadAudioWeb (s : AppState) (env : HttpOutcome) : HandleResult :=
  match env with
  | .netFail =>
    { state := { s with isLoading := false }, play := none, alert := some .connectionError }
  | .response _ .parseFail =>
    { state := { s with isLoading := false }, play := none, alert := some .connectionError }
  | .response _ (.parsed data) =>
    let r := handleSuccess s data
    { r with state := { r.state with isLoading := false } }

/-- Native branch of `uploadAudio`: `FileSystem.uploadAsync`, then a
status check (`!== 200` throws), then `JSON.parse`, then `handleSuccess`;
failures land in the catch block; the `finally` always lowers the loading
flag. -/
def uploadAudioNative (s : AppState) (env : HttpOutcome) : HandleResult :=
  match env with
  | .netFail =>
    { state := { s with isLoading := false }, play := none, alert := some .connectionError }
  | .response st body =>
    if st != 200 then
      { state := { s with isLoading := false }, play := none, alert := some .connectionError }
    else
      match body with
      | .parseFail =>
        { state := { s with isLoading := false }, play := none, alert := some .connectionError }
      | .parsed data =>
        let r := handleSuccess s data
        { r with state := { r.state with isLoading := false } }

/-- The `onValueChange` of the Live Corrections switch: writes the flag
hook and nothing else. -/
def setLiveFeedback (s : AppState) (b : Bool) : AppState :=
  { s with liveFeedback := b }

/-! ### The legacy duplicate screen -/

/-- Component state of the legacy screen (no role display, no feedback
toggling, no reset pill). -/
structure LegacyState where
  context : ScenarioId
  liveFeedback : Bool
  messages : List Turn
  isRecording : Bool
  isLoading : Bool
  recordingRef : Option Nat
  deriving DecidableEq, Repr

/-- Initial hook values of the legacy screen. -/
def legacyInit : LegacyState :=
  { context := .waiter
    liveFeedback := true
    messages := []
    isRecording := false
    isLoading := false
    recordingRef := none }

/-- The `onPress` of a context pill on the legacy screen: it ONLY sets the
context; the message list is untouched. -/
def legacyPillOnPress (s : LegacyState) (c : ScenarioId) : LegacyState :=
  { s with context := c }

/-- Result of the legacy `handleSuccess`. -/
structure LegacyHandleResult where
  state : LegacyState
  play : Option String
  alert : Option AlertKind
  deriving DecidableEq, Repr

/-- `handleSuccess` of the legacy screen: pushes a user turn and an ai
turn built with only `sender` and `text` (no feedback field, regardless of
the `liveFeedback` hook and of the server-supplied feedback). -/
def legacyHandleSuccess (s : LegacyState) (data : UploadData) : LegacyHandleResult :=
  if data.status = some successStr then
    { state := { s with messages := s.messages ++
        [ { sender := .user, text := data.user_text, feedback := none, showFeedback := false }
        , { sender := .ai, text := data.reply, feedback := none, showFeedback := false } ] }
      play := if truthy data.audio then data.audio else none
      alert := none }
  else
    { state := s, play := none, alert := some .aiError }

/-! ### Concrete data used by witnesses and counterexamples -/

def rtUserText : String := "Ik wil een koffie"

def rtReply : String := "Hier is uw koffie."

def rtFeedback : String := "Gebruik \x27graag\x27 voor beleefdheid."

def rtAudio : String := "QUJDRA=="

/-- The round-trip success response of the spec. -/
def rtData : UploadData :=
  { status := some successStr
    user_text := some rtUserText
    reply := some rtReply
    feedback := some rtFeedback
    audio := some rtAudio }

/-- A primary-screen state holding one completed exchange (two turns). -/
def stateWithTwoTurns : AppState := (handleSuccess initState rtData).state

/-- A primary-screen state with an upload in flight. -/
def loadingState : AppState := { initState with isLoading := true }

/-! ### Helper lemmas -/

/-- Closed form of `handleSuccess` on a success status. -/
theorem handleSuccess_success_eq (s : AppState) (data : UploadData)
    (h : data.status = some successStr) :
    handleSuccess s data =
      { state := { s with messages := s.messages ++
          [ { sender := .user
              text := data.user_text
              feedback := if s.liveFeedback && truthy data.feedback then data.feedback else none
              showFeedback := false }
          , { sender := .ai, text := data.reply, feedback := none, showFeedback := false } ] }
        play := if truthy data.audio then data.audio else none
        alert := none } := by
  unfold handleSuccess
  rw [if_pos h]

/-- Closed form of the legacy `handleSuccess` on a success status. -/
theorem legacyHandleSuccess_success_eq (t : LegacyState) (data : UploadData)
    (h : data.status = some successStr) :
    legacyHandleSuccess t data =
      { state := { t with messages := t.messages ++
          [ { sender := .user, text := data.user_text, feedback := none, showFeedback := false }
          , { sender := .ai, text := data.reply, feedback := none, showFeedback := false } ] }
        play := if truthy data.audio then data.audio else none
        alert := none } := by
  unfold legacyHandleSuccess
  rw [if_pos h]

/-! ### Claims -/

/-- C7: `stopRecording` invoked without an active recording handle takes
the nothing-captured path: it appends nothing, leaves the handle empty,
and leaves the controller at Idle (recording flag false, loading flag
false), whatever the environment would have done. -/
theorem stop_without_handle (s : AppState) (env : StopEnv)
    (h : s.recordingRef = none) :
    (stopRecording s env).1.messages = s.messages
    ∧ (stopRecording s env).1.isRecording = false
    ∧ (stopRecording s env).1.isLoading = false
    ∧ (stopRecording s env).1.recordingRef = none
    ∧ (stopRecording s env).2 = StopOutcome.nothingCaptured := by
  have e : stopRecording s env
      = ({ s with isRecording := false, isLoading := false }, StopOutcome.nothingCaptured) := by
    unfold stopRecording
    rw [h]
  rw [e]
  exact ⟨rfl, rfl, rfl, h, rfl⟩

/-- C7 witness: the theorem at the initial state (no handle). -/
theorem stop_without_handle_witness :
    (stopRecording initState StopEnv.stopThrows).2 = StopOutcome.nothingCaptured :=
  (stop_without_handle initState StopEnv.stopThrows rfl).2.2.2.2

/-- C8: while an upload is in flight (loading flag raised), a tap on the
record control is ignored entirely: the state is returned unchanged and no
stop, start, capture or upload action is taken. -/
theorem tap_ignored_while_uploading (s : AppState) (env : StopEnv)
    (startRes : Option Nat) (h : s.isLoading = true) :
    toggleRecording s env startRes = (s, TapAction.ignored) := by
  simp [toggleRecording, h]

/-- C8 witness: the theorem at a concrete loading state. -/
theorem tap_ignored_while_uploading_witness :
    toggleRecording loadingState StopEnv.stopThrows none
      = (loadingState, TapAction.ignored) :=
  tap_ignored_while_uploading loadingState StopEnv.stopThrows none rfl

/-- C10: any sequence of Live Corrections switch toggles leaves the
message list (and the rest of the recording state) untouched; a single
toggle writes only the flag, so the flag value a later `handleSuccess`
reads is the one current at that moment. -/
theorem live_feedback_toggle_frame (s : AppState) (bs : List Bool) :
    (bs.foldl setLiveFeedback s).messages = s.messages
    ∧ (bs.foldl setLiveFeedback s).isRecording = s.isRecording
    ∧ (bs.foldl setLiveFeedback s).isLoading = s.isLoading
    ∧ (bs.foldl setLiveFeedback s).recordingRef = s.recordingRef
    ∧ (bs.foldl setLiveFeedback s).context = s.context
    ∧ ∀ b, (setLiveFeedback s b).liveFeedback = b
        ∧ (setLiveFeedback s b).messages = s.messages := by
  induction bs generalizing s with
  | nil => exact ⟨rfl, rfl, rfl, rfl, rfl, fun _ => ⟨rfl, rfl⟩⟩
  | cons b bs ih =>
    exact ⟨(ih (setLiveFeedback s b)).1, (ih (setLiveFeedback s b)).2.1,
      (ih (setLiveFeedback s b)).2.2.1, (ih (setLiveFeedback s b)).2.2.2.1,
      (ih (setLiveFeedback s b)).2.2.2.2.1, fun _ => ⟨rfl, rfl⟩⟩

/-- C6: on a success response, `handleSuccess` appends exactly two turns,
a user turn immediately followed by an ai turn, in one state update (so an
observer of the message list never sees the user turn alone); the length
grows by exactly 2.  The same holds for the legacy screen. -/
theorem append_exchange_two_turns (s : AppState) (t : LegacyState)
    (data : UploadData) (h : data.status = some successStr) :
    (∃ u a, (handleSuccess s data).state.messages = s.messages ++ [u, a]
      ∧ u.sender = Sender.user ∧ a.sender = Sender.ai)
    ∧ (handleSuccess s data).state.messages.length = s.messages.length + 2
    ∧ (∃ u a, (legacyHandleSuccess t data).state.messages = t.messages ++ [u, a]
      ∧ u.sender = Sender.user ∧ a.sender = Sender.ai)
    ∧ (legacyHandleSuccess t data).state.messages.length = t.messages.length + 2 := by
  rw [handleSuccess_success_eq s data h, legacyHandleSuccess_success_eq t data h]
  exact ⟨⟨_, _, rfl, rfl, rfl⟩, by simp, ⟨_, _, rfl, rfl, rfl⟩, by simp⟩

/-- C6 witness: the theorem at the round-trip response and the initial
states. -/
theorem append_exchange_two_turns_witness :
    (handleSuccess initState rtData).state.messages.length
      = initState.messages.length + 2 :=
  (append_exchange_two_turns initState legacyInit rtData rfl).2.1

/-- C9: `handleSuccess` only tests the `status` field; with `status`
equal to success and every other field absent it still appends exactly two
turns, whose `text` fields are absent, and raises no alert: presence of
`user_text` and `reply` is assumed, not validated. -/
theorem success_fields_not_validated (s : AppState) (data : UploadData)
    (hstat : data.status = some successStr)
    (hmiss : data.user_text = none ∧ data.reply = none ∧ data.feedback = none) :
    (handleSuccess s data).state.messages.length = s.messages.length + 2
    ∧ (∃ u a, (handleSuccess s data).state.messages = s.messages ++ [u, a]
      ∧ u.text = none ∧ a.text = none
      ∧ u.sender = Sender.user ∧ a.sender = Sender.ai)
    ∧ (handleSuccess s data).alert = none := by
  obtain ⟨h1, h2, h3⟩ := hmiss
  rw [handleSuccess_success_eq s data hstat]
  exact ⟨by simp, ⟨_, _, rfl, h1, h2, rfl, rfl⟩, rfl⟩

/-- C9 witness: the theorem at a response that carries nothing but the
success status. -/
theorem success_fields_not_validated_witness :
    (handleSuccess initState
        { status := some successStr, user_text := none, reply := none,
          feedback := none, audio := none }).state.messages.length
      = initState.messages.length + 2 :=
  (success_fields_not_validated initState
    { status := some successStr, user_text := none, reply := none,
      feedback := none, audio := none } rfl ⟨rfl, rfl, rfl⟩).1

/-- C1 counterexample: on the legacy duplicate screen, select(waiter), one
successful exchange, then select(waiter) again leaves 2 turns in the log,
not 0: the legacy pill handler only sets the context. -/
theorem select_reselect_legacy_counterexample :
    ((legacyPillOnPress
        (legacyHandleSuccess (legacyPillOnPress legacyInit ScenarioId.waiter) rtData).state
        ScenarioId.waiter).messages).length = 2 := by
  decide

/-- C1 (amended): on the primary screen, a context pill press always
synchronously clears the message list, so select(x), any number of handled
success responses, then select(y) (x may equal y) leaves length 0; on the
legacy duplicate screen a pill press only sets the context and leaves the
message list unchanged. -/
theorem select_clears_log_amended (s : AppState) (t : LegacyState)
    (x y : ScenarioId) (datas : List UploadData) :
    (contextPillOnPress
        (datas.foldl (fun st d => (handleSuccess st d).state)
          (contextPillOnPress s x)) y).messages = []
    ∧ (contextPillOnPress
        (datas.foldl (fun st d => (handleSuccess st d).state)
          (contextPillOnPress s x)) y).messages.length = 0
    ∧ (legacyPillOnPress t y).messages = t.messages :=
  ⟨rfl, rfl, rfl⟩

/-- C2 counterexample: `toggleFeedback` at an out-of-range index (here the
empty list at index 0) raises the modelled TypeError instead of being a
silent no-op: the source dereferences the indexed element with no bounds
check. -/
theorem toggle_feedback_out_of_range_counterexample :
    toggleFeedback [] 0 = Except.error () := rfl

/-- C2 (amended): for an in-range index, `toggleFeedback` on an ai turn is
a no-op and on a user turn flips only that turn, leaving every other index
unchanged; for an out-of-range index the updater raises a TypeError
(modelled by `Except.error`) rather than silently doing nothing. -/
theorem toggle_feedback_amended (msgs : List Turn) (i : Nat) :
    (msgs.length ≤ i → toggleFeedback msgs i = Except.error ())
    ∧ (∀ t, msgs[i]? = some t → t.sender = Sender.ai →
        toggleFeedback msgs i = Except.ok msgs)
    ∧ (∀ t, msgs[i]? = some t → t.sender = Sender.user →
        toggleFeedback msgs i
          = Except.ok (msgs.set i { t with showFeedback := !t.showFeedback })
        ∧ ∀ j, j ≠ i →
            (msgs.set i { t with showFeedback := !t.showFeedback })[j]? = msgs[j]?) := by
  refine ⟨?_, ?_, ?_⟩
  · intro h
    unfold toggleFeedback
    rw [List.getElem?_eq_none h]
  · intro t ht hai
    unfold toggleFeedback
    rw [ht]
    simp [hai]
  · intro t ht hu
    refine ⟨?_, ?_⟩
    · unfold toggleFeedback
      rw [ht]
      simp [hu]
    · intro j hj
      exact List.getElem?_set_ne (Ne.symm hj)

/-- An example user turn with feedback attached. -/
def userTurnEx : Turn :=
  { sender := .user, text := some rtUserText, feedback := some rtFeedback,
    showFeedback := false }

/-- C2 witness: the amended theorem at a one-element log holding a user
turn, index 0. -/
theorem toggle_feedback_amended_witness :
    toggleFeedback [userTurnEx] 0
      = Except.ok ([userTurnEx].set 0
          { userTurnEx with showFeedback := !userTurnEx.showFeedback }) :=
  ((toggle_feedback_amended [userTurnEx] 0).2.2 userTurnEx rfl rfl).1

/-- Closed form of the native upload branch on a parse failure: the
outcome is the soft-failure record whatever the status check decides. -/
theorem uploadAudioNative_parseFail_eq (s : AppState) (st : Nat) :
    uploadAudioNative s (HttpOutcome.response st BodyOutcome.parseFail)
      = { state := { s with isLoading := false }, play := none,
          alert := some AlertKind.connectionError } := by
  by_cases hb : (st != 200) = true
  · simp only [uploadAudioNative]
    rw [if_pos hb]
  · simp only [uploadAudioNative]
    rw [if_neg hb]

/-- C3 counterexample: the web branch never inspects the status code: an
HTTP 500 response whose body parses as a success still appends two turns
and raises no notice, against the claim that any non-200 status yields a
transport error with nothing appended. -/
theorem web_ignores_status_counterexample :
    ((500 : Nat) == 200) = false
    ∧ (uploadAudioWeb initState
        (HttpOutcome.response 500 (BodyOutcome.parsed rtData))).state.messages.length = 2
    ∧ (uploadAudioWeb initState
        (HttpOutcome.response 500 (BodyOutcome.parsed rtData))).alert = none := by
  refine ⟨rfl, ?_, ?_⟩ <;> decide

/-- C3 (amended): a network failure or a parse failure yields the
transport-failure path on both branches (nothing appended, connection
notice, loading flag lowered); a non-200 status is a transport failure on
the native branch only: the web branch never inspects the status code and
appends a parsed success body whatever the status; the loading flag is
lowered on every path. -/
theorem upload_transport_amended (s : AppState) (st : Nat) (data : UploadData) :
    (uploadAudioWeb s HttpOutcome.netFail).state.messages = s.messages
    ∧ (uploadAudioWeb s HttpOutcome.netFail).alert = some AlertKind.connectionError
    ∧ (uploadAudioWeb s HttpOutcome.netFail).state.isLoading = false
    ∧ (uploadAudioNative s HttpOutcome.netFail).state.messages = s.messages
    ∧ (uploadAudioNative s HttpOutcome.netFail).alert = some AlertKind.connectionError
    ∧ (uploadAudioNative s HttpOutcome.netFail).state.isLoading = false
    ∧ (uploadAudioWeb s (HttpOutcome.response st BodyOutcome.parseFail)).state.messages
        = s.messages
    ∧ (uploadAudioWeb s (HttpOutcome.response st BodyOutcome.parseFail)).alert
        = some AlertKind.connectionError
    ∧ (uploadAudioWeb s (HttpOutcome.response st BodyOutcome.parseFail)).state.isLoading
        = false
    ∧ (uploadAudioNative s (HttpOutcome.response st BodyOutcome.parseFail)).state.messages
        = s.messages
    ∧ (uploadAudioNative s (HttpOutcome.response st BodyOutcome.parseFail)).alert
        = some AlertKind.connectionError
    ∧ (uploadAudioNative s (HttpOutcome.response st BodyOutcome.parseFail)).state.isLoading
        = false
    ∧ (st ≠ 200 →
        (uploadAudioNative s
            (HttpOutcome.response st (BodyOutcome.parsed data))).state.messages = s.messages
        ∧ (uploadAudioNative s
            (HttpOutcome.response st (BodyOutcome.parsed data))).alert
            = some AlertKind.connectionError)
    ∧ (data.status = some successStr →
        (uploadAudioWeb s
            (HttpOutcome.response st (BodyOutcome.parsed data))).state.messages.length
          = s.messages.length + 2)
    ∧ (uploadAudioWeb s
        (HttpOutcome.response st (BodyOutcome.parsed data))).state.isLoading = false
    ∧ (uploadAudioNative s
        (HttpOutcome.response st (BodyOutcome.parsed data))).state.isLoading = false := by
  refine ⟨rfl, rfl, rfl, rfl, rfl, rfl, rfl, rfl, rfl, ?_, ?_, ?_, ?_, ?_, rfl, ?_⟩
  · rw [uploadAudioNative_parseFail_eq]
  · rw [uploadAudioNative_parseFail_eq]
  · rw [uploadAudioNative_parseFail_eq]
  · intro h
    have hb : (st != 200) = true := bne_iff_ne.mpr h
    simp only [uploadAudioNative]
    rw [if_pos hb]
    exact ⟨rfl, rfl⟩
  · intro h
    show (handleSuccess s data).state.messages.length = s.messages.length + 2
    rw [handleSuccess_success_eq s data h]
    simp
  · simp only [uploadAudioNative]
    by_cases hb : (st != 200) = true
    · rw [if_pos hb]
    · rw [if_neg hb]

/-- C3 witness: the amended theorem at status 500 with the round-trip
body: the native branch fails soft, the web branch appends two turns. -/
theorem upload_transport_amended_witness :
    (uploadAudioNative initState
        (HttpOutcome.response 500 (BodyOutcome.parsed rtData))).alert
      = some AlertKind.connectionError
    ∧ (uploadAudioWeb initState
        (HttpOutcome.response 500 (BodyOutcome.parsed rtData))).state.messages.length
      = initState.messages.length + 2 := by
  obtain ⟨-, -, -, -, -, -, -, -, -, -, -, -, h1, h2, -, -⟩ :=
    upload_transport_amended initState 500 rtData
  exact ⟨(h1 (by decide)).2, h2 rfl⟩

/-- C4 counterexample: when the reset fetch throws (network failure), the
catch block only logs: a log holding two turns still holds two turns,
against the claim that the log is cleared for every remote outcome. -/
theorem reset_failure_keeps_log_counterexample :
    (resetHistory stateWithTwoTurns ResetOutcome.failure).state.messages.length = 2
    ∧ (resetHistory stateWithTwoTurns ResetOutcome.failure).loggedSoftFailure = true := by
  exact ⟨by decide, rfl⟩

/-- C4 (amended): on any HTTP response to the reset call (204 or not) the
local log is cleared, the recording and loading flags are untouched (so an
idle controller stays idle), no blocking alert is raised, and a non-204
status is only logged; when the fetch throws, the failure is only logged
and no alert is raised, but the local log is left unchanged (and the role
display stays hidden). -/
theorem reset_history_amended (s : AppState) (st : Nat) :
    (resetHistory s (ResetOutcome.response st)).state.messages = []
    ∧ (resetHistory s (ResetOutcome.response st)).state.isLoading = s.isLoading
    ∧ (resetHistory s (ResetOutcome.response st)).state.isRecording = s.isRecording
    ∧ (resetHistory s (ResetOutcome.response st)).alert = none
    ∧ (st ≠ 204 → (resetHistory s (ResetOutcome.response st)).loggedSoftFailure = true)
    ∧ (resetHistory s ResetOutcome.failure).state.messages = s.messages
    ∧ (resetHistory s ResetOutcome.failure).state.isLoading = s.isLoading
    ∧ (resetHistory s ResetOutcome.failure).state.isRecording = s.isRecording
    ∧ (resetHistory s ResetOutcome.failure).state.displayRoles = false
    ∧ (resetHistory s ResetOutcome.failure).alert = none
    ∧ (resetHistory s ResetOutcome.failure).loggedSoftFailure = true := by
  refine ⟨rfl, rfl, rfl, rfl, ?_, rfl, rfl, rfl, rfl, rfl, rfl⟩
  intro h
  exact bne_iff_ne.mpr h

/-- C4 witness: the amended theorem at a simulated non-204 response. -/
theorem reset_history_amended_witness :
    (resetHistory initState (ResetOutcome.response 500)).state.messages = []
    ∧ (resetHistory initState (ResetOutcome.response 500)).loggedSoftFailure = true := by
  obtain ⟨h1, -, -, -, h5, -⟩ := reset_history_amended initState 500
  exact ⟨h1, h5 (by decide)⟩

/-- C5 counterexample: the legacy duplicate screen drops the
server-supplied feedback even with the live-feedback hook enabled: from
the initial legacy state (hook true) and the round-trip success response,
the appended user turn carries no feedback. -/
theorem legacy_feedback_dropped_counterexample :
    legacyInit.liveFeedback = true
    ∧ rtData.feedback = some rtFeedback
    ∧ (legacyHandleSuccess legacyInit rtData).state.messages =
        [ { sender := Sender.user, text := some rtUserText, feedback := none,
            showFeedback := false }
        , { sender := Sender.ai, text := some rtReply, feedback := none,
            showFeedback := false } ] := by
  refine ⟨rfl, rfl, ?_⟩
  decide

/-- C5 (amended): on the primary screen, given a success response with a
truthy feedback field: with the live-feedback hook true the appended user
turn carries the server feedback, the ai turn carries the reply, and
playback is issued with the response audio when present; with the hook
false the user turn feedback is absent.  On the legacy duplicate screen
the appended user turn never carries feedback, whatever the hook. -/
theorem live_feedback_gating_amended (s : AppState) (t : LegacyState)
    (data : UploadData) (hs : data.status = some successStr)
    (hf : truthy data.feedback = true) :
    (s.liveFeedback = true →
      (handleSuccess s data).state.messages
        = s.messages ++
          [ { sender := .user, text := data.user_text, feedback := data.feedback,
              showFeedback := false }
          , { sender := .ai, text := data.reply, feedback := none, showFeedback := false } ]
      ∧ (truthy data.audio = true → (handleSuccess s data).play = data.audio))
    ∧ (s.liveFeedback = false →
      (handleSuccess s data).state.messages
        = s.messages ++
          [ { sender := .user, text := data.user_text, feedback := none,
              showFeedback := false }
          , { sender := .ai, text := data.reply, feedback := none, showFeedback := false } ])
    ∧ (legacyHandleSuccess t data).state.messages
        = t.messages ++
          [ { sender := .user, text := data.user_text, feedback := none,
              showFeedback := false }
          , { sender := .ai, text := data.reply, feedback := none, showFeedback := false } ] := by
  refine ⟨?_, ?_, ?_⟩
  · intro hTrue
    refine ⟨?_, ?_⟩
    · rw [handleSuccess_success_eq s data hs]
      simp [hTrue, hf]
    · intro ha
      rw [handleSuccess_success_eq s data hs]
      simp [ha]
  · intro hFalse
    rw [handleSuccess_success_eq s data hs]
    simp [hFalse]
  · rw [legacyHandleSuccess_success_eq t data hs]

/-- C5 witness: the amended theorem at the round-trip response from the
initial primary state (hook true). -/
theorem live_feedback_gating_amended_witness :
    (handleSuccess initState rtData).state.messages
      = initState.messages ++
        [ { sender := Sender.user, text := rtData.user_text, feedback := rtData.feedback,
            showFeedback := false }
        , { sender := Sender.ai, text := rtData.reply, feedback := none,
            showFeedback := false } ] :=
  ((live_feedback_gating_amended initState legacyInit rtData rfl rfl).1 rfl).1
